import Mathlib

/-!
Shallow embedding of the credential-broker core of the quickcall
integrations server (`mcp_server`), together with proofs about the
claims of its design specification.

The embedding follows the Python sources:
* `mcp_server/auth/credentials.py` — `StoredCredentials`,
  `GitHubPATCredentials`, `APICredentials`, `CredentialStore`,
  `get_github_pat`, `get_github_pat_username`;
* `mcp_server/auth/device_flow.py` — `DeviceFlowAuth.poll_for_completion`;
* `mcp_server/api_clients/github_client.py` — `fetch_prs_parallel`;
* `mcp_server/tools/github_tools.py` — `_get_client`,
  `get_appraisal_pr_details`;
* `mcp_server/tools/slack_tools.py` — `_get_client`.

Network I/O is modelled by passing the response a network call would
produce as an explicit argument; disk I/O by an explicit file-contents
field threaded through the state.  Python exceptions are modelled with
`Except`; `None` with `Option`.
-/

namespace QuickCall

/-! ## Data model (`mcp_server/auth/credentials.py`) -/

/-- `StoredCredentials`: credentials stored locally after device flow
authentication (dataclass in `credentials.py`). -/
structure StoredCredentials where
  device_token : String
  user_id : String
  email : Option String := none
  username : Option String := none
  authenticated_at : Option String := none
  deriving Repr, DecidableEq

/-- `GitHubPATCredentials`: GitHub PAT credentials stored locally,
independent of the QuickCall broker session. -/
structure GitHubPATCredentials where
  token : String
  username : String
  configured_at : String
  deriving Repr, DecidableEq

/-- `APICredentials`: fresh short-lived credentials fetched from the
QuickCall broker API. -/
structure APICredentials where
  user_id : String
  email : Option String := none
  username : Option String := none
  github_connected : Bool := false
  github_token : Option String := none
  github_username : Option String := none
  github_installation_id : Option Nat := none
  slack_connected : Bool := false
  slack_bot_token : Option String := none
  slack_team_name : Option String := none
  slack_team_id : Option String := none
  slack_user_id : Option String := none
  deriving Repr, DecidableEq

/-- JSON-level image of a `StoredCredentials` record.  `dataclasses.asdict`
emits all five keys (optional fields as `null`), so the dict has the same
shape as the dataclass. -/
structure StoredCredentialsDict where
  device_token : String
  user_id : String
  email : Option String := none
  username : Option String := none
  authenticated_at : Option String := none
  deriving Repr, DecidableEq

/-- JSON-level image of a `GitHubPATCredentials` record. -/
structure GitHubPATCredentialsDict where
  token : String
  username : String
  configured_at : String
  deriving Repr, DecidableEq

/-- `StoredCredentials.to_dict` (`asdict(self)`). -/
def StoredCredentials.to_dict (c : StoredCredentials) : StoredCredentialsDict :=
  { device_token := c.device_token, user_id := c.user_id, email := c.email,
    username := c.username, authenticated_at := c.authenticated_at }

/-- `StoredCredentials.from_dict`: reads `device_token` and `user_id`
(required keys) and `.get`s the three optional keys. -/
def StoredCredentials.from_dict (d : StoredCredentialsDict) : StoredCredentials :=
  { device_token := d.device_token, user_id := d.user_id, email := d.email,
    username := d.username, authenticated_at := d.authenticated_at }

/-- `GitHubPATCredentials.to_dict` (`asdict(self)`). -/
def GitHubPATCredentials.to_dict (c : GitHubPATCredentials) : GitHubPATCredentialsDict :=
  { token := c.token, username := c.username, configured_at := c.configured_at }

/-- `GitHubPATCredentials.from_dict`. -/
def GitHubPATCredentials.from_dict (d : GitHubPATCredentialsDict) : GitHubPATCredentials :=
  { token := d.token, username := d.username, configured_at := d.configured_at }

/-- Contents of the on-disk `~/.quickcall/credentials.json` file.
The loader recognises a `quickcall` key (new format), broker-session
fields at the top level (`device_token` present — legacy format), and a
`github_pat` key.  `legacy_flat` models the legacy top-level layout. -/
structure CredFileData where
  quickcall : Option StoredCredentialsDict := none
  legacy_flat : Option StoredCredentialsDict := none
  github_pat : Option GitHubPATCredentialsDict := none
  deriving Repr, DecidableEq

/-- State of a `CredentialStore` instance together with the on-disk file
it manages.  `file = none` models a missing `CREDENTIALS_FILE`.
`stored`, `github_pat`, `api_creds` model `self._stored`,
`self._github_pat`, `self._api_creds`. -/
structure CredStoreState where
  file : Option CredFileData := none
  stored : Option StoredCredentials := none
  github_pat : Option GitHubPATCredentials := none
  api_creds : Option APICredentials := none
  deriving Repr, DecidableEq

/-- `CredentialStore._load`, run by the constructor on a fresh store:
reads the file if it exists, preferring the `quickcall` key and falling
back to the legacy flat layout, and picks up `github_pat` if present. -/
def CredentialStore.load (file : Option CredFileData) : CredStoreState :=
  match file with
  | none => { file := none }
  | some data =>
    let stored : Option StoredCredentials :=
      match data.quickcall with
      | some q => some (StoredCredentials.from_dict q)
      | none =>
        match data.legacy_flat with
        | some q => some (StoredCredentials.from_dict q)
        | none => none
    let pat : Option GitHubPATCredentials :=
      match data.github_pat with
      | some p => some (GitHubPATCredentials.from_dict p)
      | none => none
    { file := some data, stored := stored, github_pat := pat }

/-- `CredentialStore._save_to_file`: writes the entire merged record
(both credential kinds) back to the single file. -/
def CredStoreState.save_to_file (st : CredStoreState) : CredStoreState :=
  { st with
    file := some
      { quickcall :=
          match st.stored with
          | some c => some c.to_dict
          | none => none
        legacy_flat := none
        github_pat :=
          match st.github_pat with
          | some p => some p.to_dict
          | none => none } }

/-- `CredentialStore.save`: stores QuickCall credentials, drops the
cached API credentials, and rewrites the file. -/
def CredStoreState.save (st : CredStoreState) (credentials : StoredCredentials) :
    CredStoreState :=
  CredStoreState.save_to_file { st with stored := some credentials, api_creds := none }

/-- `CredentialStore.clear`: unlinks the credentials file and drops all
three in-memory records (QuickCall + PAT + cached API credentials). -/
def CredStoreState.clear (_st : CredStoreState) : CredStoreState :=
  { file := none, stored := none, github_pat := none, api_creds := none }

/-- `CredentialStore.is_authenticated`: true iff QuickCall credentials
are present in memory. -/
def CredStoreState.is_authenticated (st : CredStoreState) : Bool :=
  st.stored.isSome

/-! ## Broker credentials endpoint (`get_api_credentials`) -/

/-- Parsed JSON body of a successful `GET /api/cli/credentials` response. -/
structure UserPayload where
  user_id : String
  email : Option String := none
  username : Option String := none
  deriving Repr, DecidableEq

/-- The `github` object of the credentials response. -/
structure GitHubPayload where
  connected : Bool
  token : Option String := none
  username : Option String := none
  installation_id : Option Nat := none
  deriving Repr, DecidableEq

/-- The `slack` object of the credentials response. -/
structure SlackPayload where
  connected : Bool
  bot_token : Option String := none
  team_name : Option String := none
  team_id : Option String := none
  user_id : Option String := none
  deriving Repr, DecidableEq

/-- Full body of a successful credentials response. -/
structure CredentialsPayload where
  user : UserPayload
  github : GitHubPayload
  slack : SlackPayload
  deriving Repr, DecidableEq

/-- Outcome of the single HTTP GET issued by `get_api_credentials`:
a 2xx response with a parsed body, a non-2xx status code, or a
transport-level exception (connection error, timeout, ...). -/
inductive ApiResponse where
  | success (payload : CredentialsPayload)
  | httpError (code : Nat)
  | exn
  deriving Repr, DecidableEq

/-- Field-by-field construction of `APICredentials` from the response
body, as in the body of `get_api_credentials`. -/
def APICredentials.of_payload (p : CredentialsPayload) : APICredentials :=
  { user_id := p.user.user_id
    email := p.user.email
    username := p.user.username
    github_connected := p.github.connected
    github_token := p.github.token
    github_username := p.github.username
    github_installation_id := p.github.installation_id
    slack_connected := p.slack.connected
    slack_bot_token := p.slack.bot_token
    slack_team_name := p.slack.team_name
    slack_team_id := p.slack.team_id
    slack_user_id := p.slack.user_id }

/-- Result of one `get_api_credentials` call: the returned value, the
post-state, and whether the HTTP GET was actually issued
(instrumentation for the freshness claims). -/
structure FetchResult where
  creds : Option APICredentials
  state : CredStoreState
  network_called : Bool
  deriving Repr, DecidableEq

/-- `CredentialStore.get_api_credentials`: returns `None` without any
network traffic when no QuickCall credentials are stored; otherwise
always issues the HTTP GET (`force_refresh` is accepted but unused —
there is no cache read).  A 401 clears the store and returns `None`;
any other error (non-2xx status or transport exception) is caught and
returns `None` with the state unchanged; on success the fresh
credentials are recorded in `api_creds` and returned. -/
def CredStoreState.get_api_credentials (st : CredStoreState)
    (_force_refresh : Bool) (response : ApiResponse) : FetchResult :=
  match st.stored with
  | none => { creds := none, state := st, network_called := false }
  | some _ =>
    match response with
    | .httpError code =>
      if code = 401 then
        { creds := none, state := st.clear, network_called := true }
      else
        { creds := none, state := st, network_called := true }
    | .exn => { creds := none, state := st, network_called := true }
    | .success p =>
      let fresh := APICredentials.of_payload p
      { creds := some fresh
        state := { st with api_creds := some fresh }
        network_called := true }

/-! ## Device authorization flow (`mcp_server/auth/device_flow.py`) -/

/-- Python exception values that can escape the modelled functions. -/
inductive PyErr where
  | httpStatusError (code : Nat)
  | transport
  deriving Repr, DecidableEq

/-- `status` field of a 2xx device-status response.  Any status string
other than `complete`, `expired`, `revoked` is treated as `pending` by
the loop, so `pending` stands for all of them. -/
inductive PollStatus where
  | complete (device_token : String) (user_id : String)
  | expired
  | revoked
  | pending
  deriving Repr, DecidableEq

/-- Outcome of one GET to `/api/device/status`: a 2xx response with a
body, a non-2xx status (which `raise_for_status` turns into
`httpx.HTTPStatusError`), or a transport exception (not an
`HTTPStatusError`, hence not caught by the loop). -/
inductive PollResponse where
  | ok_status (status : PollStatus)
  | httpError (code : Nat)
  | transportError
  deriving Repr, DecidableEq

/-- Default `interval` argument of `poll_for_completion` (seconds). -/
def poll_default_interval : Nat := 5

/-- Default `timeout` argument of `poll_for_completion` (seconds). -/
def poll_default_timeout : Nat := 900

/-- The polling loop of `DeviceFlowAuth.poll_for_completion`.

`responses n` is the body the status endpoint would produce for the
n-th poll; `auth_time` the ISO timestamp taken on completion; `elapsed`
models `time.time() - start_time`, advanced by `interval` at each
`time.sleep(interval)`.  The result pairs the Python return value /
raised exception with the credential-store state, plus the number of
status requests issued.  `fuel` makes the recursion structural; the
caller supplies `timeout + 1`, which is never exhausted when
`0 < interval` (each pending iteration advances `elapsed` and the
loop requires `elapsed < timeout`). -/
def pollLoop (responses : Nat → PollResponse) (interval timeout : Nat)
    (store : CredStoreState) (auth_time : String) :
    Nat → Nat → Nat → Except PyErr (Option StoredCredentials × CredStoreState) × Nat
  | 0, _, _ => (.ok (none, store), 0)
  | fuel + 1, n, elapsed =>
    if elapsed < timeout then
      match responses n with
      | .httpError code =>
        if code = 404 then (.ok (none, store), 1)
        else (.error (.httpStatusError code), 1)
      | .transportError => (.error .transport, 1)
      | .ok_status s =>
        match s with
        | .complete tok uid =>
          let credentials : StoredCredentials :=
            { device_token := tok, user_id := uid,
              authenticated_at := some auth_time }
          (.ok (some credentials, store.save credentials), 1)
        | .expired => (.ok (none, store), 1)
        | .revoked => (.ok (none, store), 1)
        | .pending =>
          let rest := pollLoop responses interval timeout store auth_time
            fuel (n + 1) (elapsed + interval)
          (rest.1, rest.2 + 1)
    else
      (.ok (none, store), 0)

/-- `DeviceFlowAuth.poll_for_completion` with explicit `interval` and
`timeout` arguments (Python defaults: 5 and 900). -/
def poll_for_completion (responses : Nat → PollResponse)
    (store : CredStoreState) (auth_time : String) (interval timeout : Nat) :
    Except PyErr (Option StoredCredentials × CredStoreState) × Nat :=
  pollLoop responses interval timeout store auth_time (timeout + 1) 0 0

/-- `poll_for_completion` at its default arguments (`interval=5`,
`timeout=900`), as used by `DeviceFlowAuth.authenticate` when the init
endpoint suggests the default interval. -/
def poll_for_completion_default (responses : Nat → PollResponse)
    (store : CredStoreState) (auth_time : String) :
    Except PyErr (Option StoredCredentials × CredStoreState) × Nat :=
  poll_for_completion responses store auth_time poll_default_interval poll_default_timeout

/-! ## Bulk retrieval pipeline
(`GitHubClient.fetch_prs_parallel`, `github_client.py`) -/

/-- A fetch target: one element of `pr_refs`, a dict with
`owner`, `repo`, `number`. -/
structure PRRef where
  owner : String
  repo : String
  number : Nat
  deriving Repr, DecidableEq

/-- The pydantic `PullRequest` model returned by `get_pr`
(`pr.model_dump()`); only the identifying fields matter here. -/
structure PRModel where
  number : Nat
  title : String
  deriving Repr, DecidableEq

/-- One element of the `results` list: `pr.model_dump()` with `owner`
and `repo` added for context. -/
structure PRDict where
  pr : PRModel
  owner : String
  repo : String
  deriving Repr, DecidableEq

/-- The inner `fetch_single_pr`: calls `get_pr` and catches every
exception, returning `None` both on exception and when `get_pr`
returns a falsy value.  `get_pr` is passed as an oracle mapping each
target to the outcome of its network call. -/
def fetch_single_pr (get_pr : PRRef → Except PyErr (Option PRModel))
    (pr_ref : PRRef) : Option PRDict :=
  match get_pr pr_ref with
  | .error _ => none
  | .ok none => none
  | .ok (some pr) => some { pr := pr, owner := pr_ref.owner, repo := pr_ref.repo }

/-- `GitHubClient.fetch_prs_parallel`: submits one `fetch_single_pr`
per target to a bounded thread pool, appends each non-`None` result to
`results` and each failed target to a local `errors` list, logs the
errors, and returns **only** `results`.  Worker exceptions are caught
both inside `fetch_single_pr` and around `future.result()`, so the
call itself never raises — hence the result is always `.ok`.
Completion order is modelled as submission order (the spec guarantees
no ordering). -/
def fetch_prs_parallel (get_pr : PRRef → Except PyErr (Option PRModel))
    (pr_refs : List PRRef) : Except PyErr (List PRDict) :=
  .ok (pr_refs.filterMap (fetch_single_pr get_pr))

/-- The local `errors` list accumulated by `fetch_prs_parallel`: the
targets whose fetch failed.  It is logged and then discarded — it is
not part of the return value. -/
def fetch_prs_parallel_errors (get_pr : PRRef → Except PyErr (Option PRModel))
    (pr_refs : List PRRef) : List PRRef :=
  pr_refs.filter (fun r => (fetch_single_pr get_pr r).isNone)

/-! ## Appraisal side store (`get_appraisal_pr_details`,
`github_tools.py`) -/

/-- One PR record inside the appraisal data file written by
`prepare_appraisal_data`. -/
structure AppraisalPR where
  number : Nat
  title : String
  owner : String
  repo : String
  deriving Repr, DecidableEq

/-- Parsed contents of the appraisal data file (`data.get("prs", [])`). -/
structure AppraisalData where
  prs : List AppraisalPR
  deriving Repr, DecidableEq

/-- Return value of `get_appraisal_pr_details`. -/
structure AppraisalSelection where
  count : Nat
  requested : Nat
  prs : List AppraisalPR
  deriving Repr, DecidableEq

/-- `get_appraisal_pr_details`: reads the side file (no network call)
and keeps exactly the stored PRs whose `number` is in `pr_numbers`
(`set(pr_numbers)` membership), whatever owner/repo they belong to. -/
def get_appraisal_pr_details (data : AppraisalData) (pr_numbers : List Nat) :
    AppraisalSelection :=
  let selected := data.prs.filter (fun pr => pr_numbers.contains pr.number)
  { count := selected.length, requested := pr_numbers.length, prs := selected }

/-! ## Secret locator (`get_github_pat`, `credentials.py`) -/

/-- `PAT_CONFIG_FILENAMES`, searched in order. -/
def PAT_CONFIG_FILENAMES : List String := [".quickcall.env", "quickcall.env"]

/-- `config_path = root / filename`. -/
def joinPath (dir filename : String) : String := dir ++ "/" ++ filename

/-- Ambient process environment and filesystem seen by the locator:
`env` is `os.environ.get`, `project_root` the result of
`_find_project_root()`, `file_vars path` the `_parse_env_file` dict of
`path` if that file exists (`none` models a missing file; a present but
malformed file parses to an empty dict), `home` is `Path.home()`. -/
structure LocatorEnv where
  env : String → Option String
  project_root : Option String
  file_vars : String → Option (String → Option String)
  home : String

/-- The environment-variable loop of `get_github_pat`: `GITHUB_TOKEN`
then `GITHUB_PAT`; `if token:` skips values that are empty strings. -/
def envPatLookup (e : LocatorEnv) : Option (String × String) :=
  match e.env ("GITHUB_TOKEN") with
  | some t =>
    if t.isEmpty then
      match e.env ("GITHUB_PAT") with
      | some u => if u.isEmpty then none else some (u, "GITHUB_PAT")
      | none => none
    else some (t, "GITHUB_TOKEN")
  | none =>
    match e.env ("GITHUB_PAT") with
    | some u => if u.isEmpty then none else some (u, "GITHUB_PAT")
    | none => none

/-- The `for key in ["GITHUB_TOKEN", "GITHUB_PAT"]` loop over one
parsed config file; plain `in` membership, so empty values count. -/
def configPatLookup (vars : String → Option String) : Option String :=
  match vars ("GITHUB_TOKEN") with
  | some t => some t
  | none => vars ("GITHUB_PAT")

/-- The `for filename in PAT_CONFIG_FILENAMES` loop over one directory:
skips missing files and files without either key. -/
def searchConfigFiles (e : LocatorEnv) (dir : String) :
    List String → Option (String × String)
  | [] => none
  | filename :: rest =>
    let path := joinPath dir filename
    match e.file_vars path with
    | none => searchConfigFiles e dir rest
    | some vars =>
      match configPatLookup vars with
      | some t => some (t, path)
      | none => searchConfigFiles e dir rest

/-- `get_github_pat`: search order (first found wins)
(1) stored credentials file, (2) environment variables `GITHUB_TOKEN`
then `GITHUB_PAT`, (3) project-root config files, (4) home-directory
config files.  Returns `(token, source)` or `(None, None)`. -/
def get_github_pat (store : CredStoreState) (e : LocatorEnv) :
    Option String × Option String :=
  match store.github_pat with
  | some pat_creds => (some pat_creds.token, some ("credentials file"))
  | none =>
    match envPatLookup e with
    | some (t, var) => (some t, some ("environment variable " ++ var))
    | none =>
      let projHit :=
        match e.project_root with
        | some root => searchConfigFiles e root PAT_CONFIG_FILENAMES
        | none => none
      match projHit with
      | some (t, path) => (some t, some path)
      | none =>
        match searchConfigFiles e e.home PAT_CONFIG_FILENAMES with
        | some (t, path) => (some t, some path)
        | none => (none, none)

/-- The `GITHUB_USERNAME` lookup inside one directory, used by
`get_github_pat_username`. -/
def searchConfigFilesUser (e : LocatorEnv) (dir : String) :
    List String → Option String
  | [] => none
  | filename :: rest =>
    let path := joinPath dir filename
    match e.file_vars path with
    | none => searchConfigFilesUser e dir rest
    | some vars =>
      match vars ("GITHUB_USERNAME") with
      | some u => some u
      | none => searchConfigFilesUser e dir rest

/-- `get_github_pat_username`: stored credentials, then the
`GITHUB_USERNAME` environment variable (`if username:` skips the empty
string), then project-root config files, then home config files. -/
def get_github_pat_username (store : CredStoreState) (e : LocatorEnv) :
    Option String :=
  match store.github_pat with
  | some pat_creds => some pat_creds.username
  | none =>
    let envU : Option String :=
      match e.env ("GITHUB_USERNAME") with
      | some u => if u.isEmpty then none else some u
      | none => none
    match envU with
    | some u => some u
    | none =>
      let projHit :=
        match e.project_root with
        | some root => searchConfigFilesUser e root PAT_CONFIG_FILENAMES
        | none => none
      match projHit with
      | some u => some u
      | none => searchConfigFilesUser e e.home PAT_CONFIG_FILENAMES

/-! ## Authenticated client caches
(`_get_client` in `github_tools.py` and `slack_tools.py`) -/

/-- A nested-pair encoding of a list of naturals, used only to build
concrete fingerprint functions for witnesses and counterexamples. -/
def encNatList : List Nat → Nat
  | [] => 0
  | c :: cs => Nat.pair c (encNatList cs) + 1

/-- The fingerprint used by the client caches is Python's built-in
`hash` on the token string: a per-process keyed (`PYTHONHASHSEED`),
wrapped 64-bit value — deterministic within one process, otherwise
opaque and collision-prone.  The embedding is therefore parameterized
over the fingerprint function (`hash : String → Nat` below): anything
proved about the cache must hold for whichever function the process
ends up with, and nothing may assume the fingerprint is injective.
`sampleHash` is one concrete fingerprint, used to instantiate
witnesses. -/
def sampleHash (s : String) : Nat :=
  encNatList (s.data.map Char.toNat)

/-- The `GitHubClient` object constructed by `_get_client`; `id` is a
construction counter distinguishing handle instances (Python object
identity). -/
structure GitHubClientHandle where
  id : Nat
  token : String
  default_owner : Option String
  installation_id : Option Nat
  deriving Repr, DecidableEq

/-- The module-level mutable globals of `github_tools.py`:
`_using_pat_mode`, `_pat_source`, `_client_cache`, plus the fresh-id
counter for newly constructed handles. -/
structure GitHubToolsState where
  using_pat_mode : Bool := false
  pat_source : Option String := none
  client_cache : Option (Nat × GitHubClientHandle) := none
  next_id : Nat := 0
  deriving Repr, DecidableEq

/-- The cache test shared by all three client branches:
`if _client_cache and _client_cache[0] == token_hash: return cached`. -/
def cachedHit {α : Type} (cache : Option (Nat × α)) (token_hash : Nat) : Option α :=
  match cache with
  | some (h, c) => if h = token_hash then some c else none
  | none => none

/-- The errors `_get_client` can raise (`ToolError` messages). -/
inductive ToolErr where
  | github_not_connected
  | github_auth_required
  | slack_not_authenticated
  | slack_not_connected
  | slack_no_token
  deriving Repr, DecidableEq

/-- The final error section of the GitHub `_get_client`: resets the
mode globals, drops the cache, and raises a `ToolError` whose message
depends on whether the store still holds QuickCall credentials. -/
def github_get_client_fail (store : CredStoreState) (ts : GitHubToolsState) :
    Except ToolErr GitHubClientHandle × CredStoreState × GitHubToolsState :=
  let tsNew : GitHubToolsState :=
    { using_pat_mode := false, pat_source := none, client_cache := none,
      next_id := ts.next_id }
  if store.is_authenticated then (.error .github_not_connected, store, tsNew)
  else (.error .github_auth_required, store, tsNew)

/-- The QuickCall GitHub App branch of `_get_client`: taken when no
(truthy) PAT was found.  Issues `get_api_credentials` and uses the
installation token, with the same hash-keyed cache discipline as the
PAT branch; anything short of a connected GitHub with a truthy token
falls through to the error section. -/
def github_get_client_app (hash : String → Nat) (store : CredStoreState)
    (_e : LocatorEnv) (response : ApiResponse) (ts : GitHubToolsState) :
    Except ToolErr GitHubClientHandle × CredStoreState × GitHubToolsState :=
  if store.is_authenticated then
    let fr := store.get_api_credentials false response
    match fr.creds with
    | some creds =>
      if creds.github_connected then
        match creds.github_token with
        | some gtoken =>
          if gtoken.isEmpty then github_get_client_fail fr.state ts
          else
            let token_hash := hash gtoken
            match cachedHit ts.client_cache token_hash with
            | some c => (.ok c, fr.state, ts)
            | none =>
              let client : GitHubClientHandle :=
                { id := ts.next_id, token := gtoken,
                  default_owner := creds.github_username,
                  installation_id := creds.github_installation_id }
              (.ok client, fr.state,
                { using_pat_mode := false, pat_source := none,
                  client_cache := some (token_hash, client),
                  next_id := ts.next_id + 1 })
        | none => github_get_client_fail fr.state ts
      else github_get_client_fail fr.state ts
    | none => github_get_client_fail fr.state ts
  else github_get_client_fail store ts

/-- The PAT branch of `_get_client`, entered with a truthy PAT token:
on a cache hit returns the cached handle unchanged (the mode globals
are only written on a miss); on a miss builds a fresh handle bound to
the PAT and replaces the cache entry. -/
def github_get_client_pat (hash : String → Nat) (store : CredStoreState)
    (e : LocatorEnv) (pat_token : String) (pat_source_str : Option String)
    (ts : GitHubToolsState) :
    Except ToolErr GitHubClientHandle × CredStoreState × GitHubToolsState :=
  let token_hash := hash pat_token
  match cachedHit ts.client_cache token_hash with
  | some c => (.ok c, store, ts)
  | none =>
    let pat_username := get_github_pat_username store e
    let client : GitHubClientHandle :=
      { id := ts.next_id, token := pat_token,
        default_owner := pat_username, installation_id := none }
    (.ok client, store,
      { using_pat_mode := true, pat_source := pat_source_str,
        client_cache := some (token_hash, client),
        next_id := ts.next_id + 1 })

/-- `github_tools._get_client`: tries the PAT first (`if pat_token:`,
so an empty-string PAT is not taken), falls back to the QuickCall
GitHub App token, and otherwise raises after resetting the cache.  The
post-state is returned alongside the result because the module globals
survive a raised `ToolError`. -/
def github_get_client (hash : String → Nat) (store : CredStoreState)
    (e : LocatorEnv) (response : ApiResponse) (ts : GitHubToolsState) :
    Except ToolErr GitHubClientHandle × CredStoreState × GitHubToolsState :=
  match get_github_pat store e with
  | (some pat_token, pat_source_str) =>
    if pat_token.isEmpty then github_get_client_app hash store e response ts
    else github_get_client_pat hash store e pat_token pat_source_str ts
  | (none, _) => github_get_client_app hash store e response ts

/-- The `SlackClient` object constructed by the Slack `_get_client`;
`id` is a construction counter (object identity). -/
structure SlackClientHandle where
  id : Nat
  bot_token : String
  deriving Repr, DecidableEq

/-- Module-level state of `slack_tools.py`: `_client_cache` plus the
fresh-id counter. -/
structure SlackToolsState where
  client_cache : Option (Nat × SlackClientHandle) := none
  next_id : Nat := 0
  deriving Repr, DecidableEq

/-- `slack_tools._get_client`: requires QuickCall auth, fetches fresh
credentials, requires a connected Slack with a truthy bot token, then
returns the cached client when the token hash matches and otherwise
builds and caches a new one. -/
def slack_get_client (hash : String → Nat) (store : CredStoreState)
    (response : ApiResponse) (ts : SlackToolsState) :
    Except ToolErr SlackClientHandle × CredStoreState × SlackToolsState :=
  if store.is_authenticated then
    let fr := store.get_api_credentials false response
    match fr.creds with
    | some creds =>
      if creds.slack_connected then
        match creds.slack_bot_token with
        | some tok =>
          if tok.isEmpty then (.error .slack_no_token, fr.state, ts)
          else
            let token_hash := hash tok
            match cachedHit ts.client_cache token_hash with
            | some c => (.ok c, fr.state, ts)
            | none =>
              let client : SlackClientHandle := { id := ts.next_id, bot_token := tok }
              (.ok client, fr.state,
                { client_cache := some (token_hash, client),
                  next_id := ts.next_id + 1 })
        | none => (.error .slack_no_token, fr.state, ts)
      else (.error .slack_not_connected, fr.state, ts)
    | none => (.error .slack_not_connected, fr.state, ts)
  else (.error .slack_not_authenticated, store, ts)

/-- The credential the Slack `_get_client` resolves for the current
call: the freshly fetched bot token, when Slack is connected and the
token truthy.  (Mirrors the guard chain of `slack_get_client`.) -/
def resolvedSlackToken (store : CredStoreState) (response : ApiResponse) :
    Option String :=
  if store.is_authenticated then
    match (store.get_api_credentials false response).creds with
    | some creds =>
      if creds.slack_connected then
        match creds.slack_bot_token with
        | some tok => if tok.isEmpty then none else some tok
        | none => none
      else none
    | none => none
  else none

/-- The App-token component of the GitHub resolution: the truthy
installation token of a connected GitHub, freshly fetched.  (Mirrors
the guard chain of `github_get_client_app`.) -/
def githubAppToken (store : CredStoreState) (response : ApiResponse) :
    Option String :=
  if store.is_authenticated then
    match (store.get_api_credentials false response).creds with
    | some creds =>
      if creds.github_connected then
        match creds.github_token with
        | some gtoken => if gtoken.isEmpty then none else some gtoken
        | none => none
      else none
    | none => none
  else none

/-- The credential the GitHub `_get_client` resolves for the current
call: a truthy located PAT if any, else the App installation token.
(Mirrors the guard chain of `github_get_client`.) -/
def resolvedGitHubToken (store : CredStoreState) (e : LocatorEnv)
    (response : ApiResponse) : Option String :=
  match get_github_pat store e with
  | (some pat_token, _) =>
    if pat_token.isEmpty then githubAppToken store response
    else some pat_token
  | (none, _) => githubAppToken store response

/-- Cache well-formedness for the Slack module state, relative to the
process's fingerprint function: the cached key is the fingerprint of
the cached client's token, and the cached client was built earlier
(its id is below the fresh-id counter).  This holds for the initial
state (empty cache) and is preserved by every call. -/
def SlackToolsState.wf (hash : String → Nat) (ts : SlackToolsState) : Prop :=
  ∀ h c, ts.client_cache = some (h, c) →
    h = hash c.bot_token ∧ c.id < ts.next_id

/-- Cache well-formedness for the GitHub module state. -/
def GitHubToolsState.wf (hash : String → Nat) (ts : GitHubToolsState) : Prop :=
  ∀ h c, ts.client_cache = some (h, c) →
    h = hash c.token ∧ c.id < ts.next_id

/-! ## Concrete fixtures for witnesses and counterexamples -/

/-- A linked broker session, as written by the device flow. -/
def sampleStored : StoredCredentials :=
  { device_token := "qt_x", user_id := "u1" }

/-- An independently configured GitHub PAT record. -/
def samplePat : GitHubPATCredentials :=
  { token := "ghp_abc", username := "octo", configured_at := "2026-01-01T00:00:00Z" }

/-- A store holding both credential kinds, in memory and on disk. -/
def sampleState : CredStoreState :=
  { file := some
      { quickcall := some sampleStored.to_dict
        github_pat := some samplePat.to_dict }
    stored := some sampleStored
    github_pat := some samplePat }

/-- A fresh-install store: no file, nothing in memory. -/
def emptyStore : CredStoreState := {}

/-- A fixed ISO timestamp for device-flow completion. -/
def tsT : String := "2026-02-01T00:00:00Z"

/-- A status endpoint that reports `pending` forever. -/
def allPending : Nat → PollResponse := fun _ => .ok_status .pending

/-- A status endpoint that reports `pending` for the first 120 polls
and then completes — at the default interval of 5 seconds, completion
happens at 600 seconds of wall-clock time, past a five-minute bound
but inside the actual 900-second default. -/
def pendingThenComplete : Nat → PollResponse := fun n =>
  if n < 120 then .ok_status .pending
  else .ok_status (.complete ("qt_x") ("u1"))

/-- The credentials persisted when `pendingThenComplete` completes. -/
def lateCreds : StoredCredentials :=
  { device_token := "qt_x", user_id := "u1", authenticated_at := some tsT }

/-- A status endpoint that always answers 404. -/
def pollNotFound : Nat → PollResponse := fun _ => .httpError 404

/-- A status endpoint that always answers 500. -/
def pollServerError : Nat → PollResponse := fun _ => .httpError 500

/-- A bulk-fetch target in repository `alpha`. -/
def prRefAlpha : PRRef := { owner := "octo", repo := "alpha", number := 1 }

/-- A bulk-fetch target in repository `beta`. -/
def prRefBeta : PRRef := { owner := "octo", repo := "beta", number := 2 }

/-- A `get_pr` oracle for which exactly the `beta` target fails with a
transport error. -/
def oracleOneFailure : PRRef → Except PyErr (Option PRModel) := fun r =>
  if r = prRefBeta then .error .transport
  else .ok (some { number := r.number, title := "PR" })

/-- A `get_pr` oracle for which every target succeeds. -/
def oracleAllOk : PRRef → Except PyErr (Option PRModel) := fun r =>
  .ok (some { number := r.number, title := "PR" })

/-- An environment that carries a `GITHUB_TOKEN` variable and nothing
else. -/
def envWithToken : LocatorEnv :=
  { env := fun k => if k = ("GITHUB_TOKEN") then some ("ghp_env") else none
    project_root := none
    file_vars := fun _ => none
    home := "/home/u" }

/-- Parsed contents of a project config file defining `GITHUB_TOKEN`. -/
def projConfigVars : String → Option String := fun k =>
  if k = ("GITHUB_TOKEN") then some ("ghp_cfg") else none

/-- An environment with no variables set, but a project root whose
`.quickcall.env` defines `GITHUB_TOKEN`. -/
def envWithConfig : LocatorEnv :=
  { env := fun _ => none
    project_root := some ("/proj")
    file_vars := fun p =>
      if p = ("/proj/.quickcall.env") then some projConfigVars else none
    home := "/home/u" }

/-- A credentials-endpoint body with Slack connected. -/
def slackPayload1 : CredentialsPayload :=
  { user := { user_id := "u1" }
    github := { connected := false }
    slack := { connected := true, bot_token := some ("xoxb-1") } }

/-- A successful credentials response carrying `slackPayload1`. -/
def slackResp1 : ApiResponse := .success slackPayload1

/-- The Slack client built on the first call of the witness scenario. -/
def slackClient1 : SlackClientHandle := { id := 0, bot_token := "xoxb-1" }

/-- The credential-store state after fetching `slackPayload1`. -/
def slackStoreAfter : CredStoreState :=
  { sampleState with api_creds := some (APICredentials.of_payload slackPayload1) }

/-- The Slack module state after the first witness call (fingerprints
taken with `sampleHash`). -/
def slackTs1 : SlackToolsState :=
  { client_cache := some (sampleHash slackClient1.bot_token, slackClient1)
    next_id := 1 }

/-- A second environment whose `GITHUB_TOKEN` differs from
`envWithToken` — a credential rotation between two calls. -/
def envWithToken2 : LocatorEnv :=
  { env := fun k => if k = ("GITHUB_TOKEN") then some ("ghp_new") else none
    project_root := none
    file_vars := fun _ => none
    home := "/home/u" }

/-- Provenance string of a PAT found in `GITHUB_TOKEN`. -/
def envSource1 : Option String :=
  some ("environment variable " ++ ("GITHUB_TOKEN"))

/-- The GitHub client built from `envWithToken` on a fresh cache. -/
def ghClient1 : GitHubClientHandle :=
  { id := 0, token := "ghp_env", default_owner := none, installation_id := none }

/-- The GitHub client built after the rotation to `envWithToken2`. -/
def ghClient2 : GitHubClientHandle :=
  { id := 1, token := "ghp_new", default_owner := none, installation_id := none }

/-- GitHub module state after the first witness call (fingerprints
taken with `sampleHash`). -/
def ghTs1 : GitHubToolsState :=
  { using_pat_mode := true, pat_source := envSource1
    client_cache := some (sampleHash ghClient1.token, ghClient1), next_id := 1 }

/-- GitHub module state after the second witness call (rotated token,
rebuilt handle, replaced cache entry). -/
def ghTs2 : GitHubToolsState :=
  { using_pat_mode := true, pat_source := envSource1
    client_cache := some (sampleHash ghClient2.token, ghClient2), next_id := 2 }

/-- A fingerprint function under which the rotated PAT collides with
the original one.  Python's string `hash` is a per-process keyed map
into a wrapped 64-bit range, so no inequality between two specific
tokens' fingerprints is guaranteed by the code — functions identifying
`ghp_new` with `ghp_env` are admissible fingerprints, and the cache
must be analysed against them too. -/
def collidingHash : String → Nat := fun s =>
  if s = ("ghp_new") then sampleHash ("ghp_env") else sampleHash s

/-- GitHub module state after the first call under `collidingHash`. -/
def ghTs1C : GitHubToolsState :=
  { using_pat_mode := true, pat_source := envSource1
    client_cache := some (collidingHash ghClient1.token, ghClient1)
    next_id := 1 }

end QuickCall

namespace QuickCall

/-! ## Theorems -/

/-- Claim C2: on a 401 from the broker credentials endpoint,
`get_api_credentials` returns `None` instead of raising (the modelled
call is total and yields a value, not a `PyErr`), `is_authenticated`
is false on the resulting state, and the on-disk record is gone — in
particular it no longer contains the broker session fields. -/
theorem get_api_credentials_401_self_heals (st : CredStoreState) (fr : Bool)
    (h : st.stored.isSome = true) :
    (st.get_api_credentials fr (.httpError 401)).creds = none ∧
    (st.get_api_credentials fr (.httpError 401)).state.is_authenticated = false ∧
    (st.get_api_credentials fr (.httpError 401)).state.file = none := by
  obtain ⟨s, hs⟩ := Option.isSome_iff_exists.mp h
  simp [CredStoreState.get_api_credentials, hs, CredStoreState.clear,
    CredStoreState.is_authenticated]

/-- Witness for C2 at a concrete authenticated store. -/
theorem get_api_credentials_401_self_heals_witness :
    (sampleState.get_api_credentials false (.httpError 401)).creds = none ∧
    (sampleState.get_api_credentials false (.httpError 401)).state.is_authenticated = false ∧
    (sampleState.get_api_credentials false (.httpError 401)).state.file = none :=
  get_api_credentials_401_self_heals sampleState false rfl

/-- Claim C3 counterexample: the claim says the 401 self-heal leaves
the stored GitHub PAT untouched.  On a store holding both a broker
session and a PAT, the 401 path calls `CredentialStore.clear`, which
also drops the PAT (and deletes the whole file), so the PAT record
after the call differs from the one before. -/
theorem get_api_credentials_401_pat_counterexample :
    (sampleState.get_api_credentials false (.httpError 401)).state.github_pat ≠
      sampleState.github_pat := by
  decide

/-- Claim C3 (amended): on a 401, `get_api_credentials` clears the
whole store — broker session, GitHub PAT and cached API credentials,
in memory and on disk — and returns `None`. -/
theorem get_api_credentials_401_clears_all (st : CredStoreState) (fr : Bool)
    (h : st.stored.isSome = true) :
    (st.get_api_credentials fr (.httpError 401)).state =
      { file := none, stored := none, github_pat := none, api_creds := none } ∧
    (st.get_api_credentials fr (.httpError 401)).creds = none := by
  obtain ⟨s, hs⟩ := Option.isSome_iff_exists.mp h
  simp [CredStoreState.get_api_credentials, hs, CredStoreState.clear]

/-- Witness for the amended C3 on a store holding both credential
kinds. -/
theorem get_api_credentials_401_clears_all_witness :
    (sampleState.get_api_credentials false (.httpError 401)).state =
      { file := none, stored := none, github_pat := none, api_creds := none } ∧
    (sampleState.get_api_credentials false (.httpError 401)).creds = none :=
  get_api_credentials_401_clears_all sampleState false rfl

/-- Claim C5: whenever broker credentials are stored, every
`get_api_credentials` call issues the network request; the result is
identical for `force_refresh = true` and `false` (the flag is unused),
and the returned value and the fact that the network was hit do not
depend on any previously cached `api_creds` value. -/
theorem get_api_credentials_freshness (st : CredStoreState)
    (response : ApiResponse) (fr fr2 : Bool) (cached : Option APICredentials)
    (h : st.stored.isSome = true) :
    (st.get_api_credentials fr response).network_called = true ∧
    st.get_api_credentials fr response = st.get_api_credentials fr2 response ∧
    (({ st with api_creds := cached } : CredStoreState).get_api_credentials
        fr response).creds = (st.get_api_credentials fr response).creds ∧
    (({ st with api_creds := cached } : CredStoreState).get_api_credentials
        fr response).network_called = true := by
  obtain ⟨s, hs⟩ := Option.isSome_iff_exists.mp h
  refine ⟨?_, rfl, ?_, ?_⟩ <;>
    cases response <;>
    simp [CredStoreState.get_api_credentials, hs, CredStoreState.clear] <;>
    split <;> simp

/-- Witness for C5 at a concrete authenticated store and a concrete
success response. -/
theorem get_api_credentials_freshness_witness :
    (sampleState.get_api_credentials true (.httpError 500)).network_called = true ∧
    sampleState.get_api_credentials true (.httpError 500)
      = sampleState.get_api_credentials false (.httpError 500) ∧
    (({ sampleState with api_creds := some { user_id := "u1" } } :
        CredStoreState).get_api_credentials true (.httpError 500)).creds
      = (sampleState.get_api_credentials true (.httpError 500)).creds ∧
    (({ sampleState with api_creds := some { user_id := "u1" } } :
        CredStoreState).get_api_credentials true (.httpError 500)).network_called = true :=
  get_api_credentials_freshness sampleState (.httpError 500) true false
    (some { user_id := "u1" }) rfl

/-- Claim C8: saving broker credentials and re-reading the file with a
fresh store (process restart) restores credentials equal to the saved
ones in every field, including the `none`-valued optional fields. -/
theorem save_reload_round_trip (st : CredStoreState)
    (credentials : StoredCredentials) :
    (CredentialStore.load (st.save credentials).file).stored = some credentials := by
  cases credentials
  simp [CredStoreState.save, CredStoreState.save_to_file, CredentialStore.load,
    StoredCredentials.to_dict, StoredCredentials.from_dict]

/-! ### Device flow: supporting lemmas -/

/-- Against an always-pending server the polling loop can only return
the `None` outcome (whatever the fuel). -/
theorem pollLoop_pending (responses : Nat → PollResponse)
    (interval timeout : Nat) (store : CredStoreState) (auth_time : String)
    (hp : ∀ n, responses n = .ok_status .pending) :
    ∀ fuel n elapsed,
      (pollLoop responses interval timeout store auth_time fuel n elapsed).1
        = .ok (none, store) := by
  intro fuel
  induction fuel with
  | zero => intro n elapsed; simp [pollLoop]
  | succ fuel ih =>
    intro n elapsed
    by_cases hlt : elapsed < timeout
    · simp [pollLoop, hlt, hp n, ih]
    · simp [pollLoop, hlt]

/-- Poll-count invariant of the loop: once the wall clock has expired
no request is issued, and in general the loop issues at most about
`timeout / interval` requests: `interval * polls ≤ (timeout - elapsed)
+ interval`. -/
theorem pollLoop_count (responses : Nat → PollResponse)
    (interval timeout : Nat) (store : CredStoreState) (auth_time : String) :
    ∀ fuel n elapsed,
      (timeout ≤ elapsed →
        (pollLoop responses interval timeout store auth_time fuel n elapsed).2 = 0) ∧
      interval * (pollLoop responses interval timeout store auth_time fuel n elapsed).2
        ≤ (timeout - elapsed) + interval := by
  intro fuel
  induction fuel with
  | zero => intro n elapsed; exact ⟨fun _ => rfl, by simp [pollLoop]⟩
  | succ fuel ih =>
    intro n elapsed
    constructor
    · intro hte
      have hlt : ¬elapsed < timeout := Nat.not_lt.mpr hte
      simp [pollLoop, hlt]
    · by_cases hlt : elapsed < timeout
      · cases hr : responses n with
        | httpError code =>
          by_cases h404 : code = 404 <;>
            simp [pollLoop, hlt, hr, h404]
        | transportError => simp [pollLoop, hlt, hr]
        | ok_status s =>
          cases s with
          | complete tok uid => simp [pollLoop, hlt, hr]
          | expired => simp [pollLoop, hlt, hr]
          | revoked => simp [pollLoop, hlt, hr]
          | pending =>
            simp only [pollLoop, hlt, hr, if_true]
            rcases Nat.lt_or_ge (elapsed + interval) timeout with hlt2 | hge2
            · have h2 := (ih (n + 1) (elapsed + interval)).2
              rw [Nat.mul_succ]
              generalize (pollLoop responses interval timeout store auth_time
                fuel (n + 1) (elapsed + interval)).2 = c at h2 ⊢
              generalize interval * c = A at h2 ⊢
              omega
            · have h1 := (ih (n + 1) (elapsed + interval)).1 hge2
              rw [h1, Nat.mul_one]
              omega
      · simp [pollLoop, hlt]

/-- A server that immediately reports `expired` makes the poll return
the `None` outcome after at most one request. -/
theorem poll_expired_result (store : CredStoreState) (auth_time : String)
    (interval timeout : Nat) :
    (poll_for_completion (fun _ => .ok_status .expired) store auth_time
      interval timeout).1 = .ok (none, store) := by
  unfold poll_for_completion
  by_cases h : 0 < timeout <;> simp [pollLoop, h]

/-- Claim C4 counterexample: the claim puts the default wall-clock
timeout at five minutes (300 s).  Against a server that stays pending
for 120 polls and then completes — i.e. completion at 600 seconds of
wall-clock time with the default 5-second interval — polling under the
default arguments still succeeds and persists credentials, which a
300-second bound would have cut off; the actual default is 900 s. -/
theorem poll_default_timeout_counterexample :
    poll_for_completion_default pendingThenComplete emptyStore tsT
      = (.ok (some lateCreds, emptyStore.save lateCreds), 121) ∧
    120 * poll_default_interval = 600 ∧
    poll_default_timeout = 900 :=
  ⟨rfl, rfl, rfl⟩

/-- Claim C4 (amended): device-flow polling is bounded by a wall-clock
timeout whose default is 900 seconds (fifteen minutes), independent of
the server-reported expiry (the expiry never reaches
`poll_for_completion`); a server that never completes produces exactly
the expired-authorization outcome (`None`, same return as `expired`),
and for every server behaviour the number of status requests is
bounded by the wall clock: `interval * polls ≤ timeout + interval`. -/
theorem poll_wall_clock_timeout (responses : Nat → PollResponse)
    (store : CredStoreState) (auth_time : String) (interval timeout : Nat)
    (hp : ∀ n, responses n = .ok_status .pending) :
    (poll_for_completion responses store auth_time interval timeout).1
      = .ok (none, store) ∧
    (poll_for_completion responses store auth_time interval timeout).1
      = (poll_for_completion (fun _ => .ok_status .expired) store auth_time
          interval timeout).1 ∧
    (∀ rs : Nat → PollResponse,
      interval * (poll_for_completion rs store auth_time interval timeout).2
        ≤ timeout + interval) ∧
    poll_default_timeout = 900 := by
  have h1 : (poll_for_completion responses store auth_time interval timeout).1
      = .ok (none, store) :=
    pollLoop_pending responses interval timeout store auth_time hp
      (timeout + 1) 0 0
  refine ⟨h1, ?_, ?_, rfl⟩
  · rw [h1, poll_expired_result]
  · intro rs
    have h := (pollLoop_count rs interval timeout store auth_time
      (timeout + 1) 0 0).2
    simpa [poll_for_completion] using h

/-- Witness for the amended C4: an always-pending server under the
default arguments. -/
theorem poll_wall_clock_timeout_witness :
    (poll_for_completion allPending emptyStore tsT 5 900).1
      = .ok (none, emptyStore) ∧
    (poll_for_completion allPending emptyStore tsT 5 900).1
      = (poll_for_completion (fun _ => .ok_status .expired) emptyStore tsT 5 900).1 ∧
    (∀ rs : Nat → PollResponse,
      5 * (poll_for_completion rs emptyStore tsT 5 900).2 ≤ 900 + 5) ∧
    poll_default_timeout = 900 :=
  poll_wall_clock_timeout allPending emptyStore tsT 5 900 (fun _ => rfl)

/-- Claim C10: during device-flow polling, a 404 from the status
endpoint is the only HTTP error converted into the non-raising `None`
outcome; any other non-2xx status is re-raised as an
`HTTPStatusError`, and either way the loop stops after exactly one
status request (no retry), whatever the server would answer later. -/
theorem poll_only_404_swallowed (responses : Nat → PollResponse)
    (store : CredStoreState) (auth_time : String)
    (interval timeout code : Nat)
    (ht : 0 < timeout) (hr : responses 0 = .httpError code) :
    (code = 404 →
      poll_for_completion responses store auth_time interval timeout
        = (.ok (none, store), 1)) ∧
    (code ≠ 404 →
      poll_for_completion responses store auth_time interval timeout
        = (.error (.httpStatusError code), 1)) := by
  constructor
  · intro h404
    subst h404
    simp [poll_for_completion, pollLoop, ht, hr]
  · intro hne
    simp [poll_for_completion, pollLoop, ht, hr, hne]

/-- Witness for C10: a 404 server and a 500 server, at the default
arguments. -/
theorem poll_only_404_swallowed_witness :
    poll_for_completion pollNotFound emptyStore tsT 5 900
      = (.ok (none, emptyStore), 1) ∧
    poll_for_completion pollServerError emptyStore tsT 5 900
      = (.error (.httpStatusError 500), 1) :=
  ⟨(poll_only_404_swallowed pollNotFound emptyStore tsT 5 900 404
      (by omega) rfl).1 rfl,
   (poll_only_404_swallowed pollServerError emptyStore tsT 5 900 500
      (by omega) rfl).2 (by omega)⟩

/-! ### Bulk retrieval pipeline -/

/-- Splitting a list into the targets a partial function accepts and
those it rejects accounts for every element. -/
theorem length_filterMap_add_filter_isNone {α β : Type} (f : α → Option β)
    (l : List α) :
    (l.filterMap f).length + (l.filter (fun a => (f a).isNone)).length
      = l.length := by
  induction l with
  | nil => simp
  | cons a l ih => cases h : f a <;> simp [h] <;> omega

/-- Claim C1 counterexample: the claim says the k failed targets are
returned to the caller as a failures list.  But the value
`fetch_prs_parallel` returns for a two-target batch whose `beta`
target fails is *identical* to the one returned for a one-target batch
with no failures at all — the internal errors lists differ
(`[prRefBeta]` versus `[]`) yet the caller receives the same value, so
the failed targets are not part of what is returned. -/
theorem fetch_prs_parallel_failures_invisible :
    fetch_prs_parallel oracleOneFailure [prRefAlpha, prRefBeta]
      = fetch_prs_parallel oracleAllOk [prRefAlpha] ∧
    fetch_prs_parallel_errors oracleOneFailure [prRefAlpha, prRefBeta]
      = [prRefBeta] ∧
    fetch_prs_parallel_errors oracleAllOk [prRefAlpha] = [] :=
  ⟨rfl, rfl, rfl⟩

/-- Claim C1 (amended): for every batch of N targets of which exactly
k fail, `fetch_prs_parallel` never raises (the result is always
`.ok`), the returned list holds the N−k successful results, and the k
failed targets are exactly the ones recorded in the *internal* errors
list — which is logged and dropped, not returned to the caller. -/
theorem fetch_prs_parallel_batch_resilience
    (get_pr : PRRef → Except PyErr (Option PRModel)) (pr_refs : List PRRef) :
    ∃ rs, fetch_prs_parallel get_pr pr_refs = .ok rs ∧
      rs.length + (fetch_prs_parallel_errors get_pr pr_refs).length
        = pr_refs.length ∧
      (∀ r, r ∈ fetch_prs_parallel_errors get_pr pr_refs ↔
        (r ∈ pr_refs ∧ fetch_single_pr get_pr r = none)) := by
  refine ⟨_, rfl, ?_, ?_⟩
  · exact length_filterMap_add_filter_isNone (fetch_single_pr get_pr) pr_refs
  · intro r
    simp [fetch_prs_parallel_errors, List.mem_filter, Option.isNone_iff_eq_none]

/-! ### Appraisal side store -/

/-- Claim C9: `get_appraisal_pr_details` selects stored PRs by number
alone — a stored PR is returned exactly when its number is among the
requested numbers, with owner and repository playing no role (so two
PRs from different repositories sharing a number are both returned) —
and the call is a pure function of the side-store contents: its model
takes no network oracle at all. -/
theorem get_appraisal_pr_details_by_number (data : AppraisalData)
    (pr_numbers : List Nat) :
    (∀ pr, pr ∈ (get_appraisal_pr_details data pr_numbers).prs ↔
        (pr ∈ data.prs ∧ pr.number ∈ pr_numbers)) ∧
    (get_appraisal_pr_details data pr_numbers).count
      = (get_appraisal_pr_details data pr_numbers).prs.length ∧
    (get_appraisal_pr_details data pr_numbers).requested
      = pr_numbers.length := by
  refine ⟨?_, rfl, rfl⟩
  intro pr
  simp [get_appraisal_pr_details, List.mem_filter]

/-! ### Secret locator -/

/-- Claim C6: the GitHub PAT lookup honours the source order
(1) persisted credential store, (2) process environment,
(3) project-root config files, (4) home config files.  A stored PAT
wins over everything (with provenance `credentials file`); with no
stored PAT a non-empty `GITHUB_TOKEN` environment variable wins over
any config file; with neither, a project-root config hit wins over the
home directory. -/
theorem get_github_pat_precedence (store : CredStoreState) (e : LocatorEnv) :
    (∀ p, store.github_pat = some p →
        get_github_pat store e = (some p.token, some ("credentials file"))) ∧
    (∀ t, store.github_pat = none → e.env ("GITHUB_TOKEN") = some t →
        t.isEmpty = false →
        get_github_pat store e
          = (some t, some ("environment variable " ++ ("GITHUB_TOKEN")))) ∧
    (∀ root vars t, store.github_pat = none →
        e.env ("GITHUB_TOKEN") = none → e.env ("GITHUB_PAT") = none →
        e.project_root = some root →
        e.file_vars (joinPath root (".quickcall.env")) = some vars →
        vars ("GITHUB_TOKEN") = some t →
        get_github_pat store e
          = (some t, some (joinPath root (".quickcall.env")))) := by
  refine ⟨?_, ?_, ?_⟩
  · intro p hp
    simp [get_github_pat, hp]
  · intro t hn he ht
    simp [get_github_pat, hn, envPatLookup, he, ht]
  · intro root vars t hn h1 h2 hroot hfile hv
    simp [get_github_pat, hn, envPatLookup, h1, h2, hroot,
      PAT_CONFIG_FILENAMES, searchConfigFiles, hfile, configPatLookup, hv]

/-- Witness for C6: a store holding a PAT beats an environment
variable; the environment variable wins on a fresh store; a
project-root config file wins when the environment is empty. -/
theorem get_github_pat_precedence_witness :
    get_github_pat sampleState envWithToken
      = (some samplePat.token, some ("credentials file")) ∧
    get_github_pat emptyStore envWithToken
      = (some ("ghp_env"), some ("environment variable " ++ ("GITHUB_TOKEN"))) ∧
    get_github_pat emptyStore envWithConfig
      = (some ("ghp_cfg"), some (joinPath ("/proj") (".quickcall.env"))) :=
  ⟨(get_github_pat_precedence sampleState envWithToken).1 samplePat rfl,
   (get_github_pat_precedence emptyStore envWithToken).2.1 ("ghp_env") rfl rfl rfl,
   (get_github_pat_precedence emptyStore envWithConfig).2.2 ("/proj")
     projConfigVars ("ghp_cfg") rfl rfl rfl rfl rfl rfl⟩

/-! ### Client caches: cache-lookup lemmas -/

/-- Inversion of a cache hit: the stored entry carries exactly the
queried fingerprint. -/
theorem cachedHit_eq_some {α : Type} (cache : Option (Nat × α)) (k : Nat)
    (c : α) (h : cachedHit cache k = some c) : cache = some (k, c) := by
  cases cache with
  | none => simp [cachedHit] at h
  | some p =>
    obtain ⟨h0, c0⟩ := p
    by_cases hk : h0 = k
    · simp [cachedHit, hk] at h
      rw [hk, h]
    · simp [cachedHit, hk] at h

/-- A cache keyed by a different fingerprint never hits. -/
theorem cachedHit_ne {α : Type} (k0 k : Nat) (c0 : α) (hne : k0 ≠ k) :
    cachedHit (some (k0, c0)) k = none := by
  simp [cachedHit, hne]

/-! ### Client caches: one-call lemmas for the Slack client -/

/-- A successful Slack `_get_client` call presupposes a resolved
bot token. -/
theorem slack_get_client_ok_exists (hash : String → Nat)
    (store : CredStoreState) (response : ApiResponse) (ts : SlackToolsState)
    (c : SlackClientHandle) (st2 : CredStoreState) (ts2 : SlackToolsState)
    (h : slack_get_client hash store response ts = (.ok c, st2, ts2)) :
    ∃ t, resolvedSlackToken store response = some t := by
  cases hb : store.is_authenticated with
  | false => simp [slack_get_client, hb] at h
  | true =>
    cases hc : (store.get_api_credentials false response).creds with
    | none => simp [slack_get_client, hb, hc] at h
    | some creds =>
      cases hsc : creds.slack_connected with
      | false => simp [slack_get_client, hb, hc, hsc] at h
      | true =>
        cases hbt : creds.slack_bot_token with
        | none => simp [slack_get_client, hb, hc, hsc, hbt] at h
        | some tok =>
          cases hne : tok.isEmpty with
          | true => simp [slack_get_client, hb, hc, hsc, hbt, hne] at h
          | false =>
            exact ⟨tok, by simp [resolvedSlackToken, hb, hc, hsc, hbt, hne]⟩

/-- With a resolved bot token, the Slack `_get_client` either hits the
cache (returning the cached handle, state untouched) or builds a fresh
handle bound to the token and replaces the cache entry. -/
theorem slack_get_client_resolved (hash : String → Nat)
    (store : CredStoreState) (response : ApiResponse) (ts : SlackToolsState)
    (t : String) (h : resolvedSlackToken store response = some t) :
    slack_get_client hash store response ts =
      (match cachedHit ts.client_cache (hash t) with
       | some c0 =>
         (.ok c0, (store.get_api_credentials false response).state, ts)
       | none =>
         (.ok { id := ts.next_id, bot_token := t },
          (store.get_api_credentials false response).state,
          { client_cache := some (hash t, { id := ts.next_id, bot_token := t })
            next_id := ts.next_id + 1 })) := by
  cases hb : store.is_authenticated with
  | false => simp [resolvedSlackToken, hb] at h
  | true =>
    cases hc : (store.get_api_credentials false response).creds with
    | none => simp [resolvedSlackToken, hb, hc] at h
    | some creds =>
      cases hsc : creds.slack_connected with
      | false => simp [resolvedSlackToken, hb, hc, hsc] at h
      | true =>
        cases hbt : creds.slack_bot_token with
        | none => simp [resolvedSlackToken, hb, hc, hsc, hbt] at h
        | some tok =>
          cases hne : tok.isEmpty with
          | true => simp [resolvedSlackToken, hb, hc, hsc, hbt, hne] at h
          | false =>
            have ht : tok = t := by
              simpa [resolvedSlackToken, hb, hc, hsc, hbt, hne] using h
            subst ht
            cases hch : cachedHit ts.client_cache (hash tok) <;>
              simp [slack_get_client, hb, hc, hsc, hbt, hne, hch]

/-- After any successful Slack `_get_client` call, the cache holds the
returned handle under its token fingerprint, the handle's id is below
the fresh-id counter, and well-formedness is preserved. -/
theorem slack_get_client_post (hash : String → Nat) (store : CredStoreState)
    (response : ApiResponse) (ts : SlackToolsState) (c : SlackClientHandle)
    (st2 : CredStoreState) (ts2 : SlackToolsState) (hwf : ts.wf hash)
    (h : slack_get_client hash store response ts = (.ok c, st2, ts2)) :
    ts2.client_cache = some (hash c.bot_token, c) ∧
    c.id < ts2.next_id ∧ ts2.wf hash := by
  obtain ⟨t, hres⟩ :=
    slack_get_client_ok_exists hash store response ts c st2 ts2 h
  rw [slack_get_client_resolved hash store response ts t hres] at h
  cases hch : cachedHit ts.client_cache (hash t) with
  | some c0 =>
    rw [hch] at h
    simp only [Prod.mk.injEq, Except.ok.injEq] at h
    obtain ⟨h1, _, h3⟩ := h
    rw [h1] at hch
    subst h3
    have hcache := cachedHit_eq_some ts.client_cache (hash t) c hch
    obtain ⟨hkey, hid⟩ := hwf _ _ hcache
    rw [hkey] at hcache
    exact ⟨hcache, hid, hwf⟩
  | none =>
    rw [hch] at h
    simp only [Prod.mk.injEq, Except.ok.injEq] at h
    obtain ⟨h1, _, h3⟩ := h
    subst h1
    subst h3
    refine ⟨rfl, Nat.lt_succ_self _, ?_⟩
    intro h0 c0 hc0
    simp only [Option.some.injEq, Prod.mk.injEq] at hc0
    obtain ⟨hk0, hc0⟩ := hc0
    subst hk0
    subst hc0
    exact ⟨rfl, Nat.lt_succ_self _⟩

/-! ### Client caches: one-call lemmas for the GitHub client -/

/-- The error section never returns a client. -/
theorem github_get_client_fail_ne_ok (store : CredStoreState)
    (ts : GitHubToolsState) (c : GitHubClientHandle) (st2 : CredStoreState)
    (ts2 : GitHubToolsState) :
    github_get_client_fail store ts ≠ (.ok c, st2, ts2) := by
  intro h
  unfold github_get_client_fail at h
  split_ifs at h <;> simp at h

/-- A successful App-branch call presupposes a resolved App token. -/
theorem github_get_client_app_ok_exists (hash : String → Nat)
    (store : CredStoreState) (e : LocatorEnv) (response : ApiResponse)
    (ts : GitHubToolsState) (c : GitHubClientHandle) (st2 : CredStoreState)
    (ts2 : GitHubToolsState)
    (h : github_get_client_app hash store e response ts = (.ok c, st2, ts2)) :
    ∃ t, githubAppToken store response = some t := by
  cases hb : store.is_authenticated with
  | false =>
    have hf : github_get_client_fail store ts = (.ok c, st2, ts2) := by
      simpa [github_get_client_app, hb] using h
    exact absurd hf (github_get_client_fail_ne_ok _ _ _ _ _)
  | true =>
    cases hc : (store.get_api_credentials false response).creds with
    | none =>
      have hf : github_get_client_fail
          (store.get_api_credentials false response).state ts
            = (.ok c, st2, ts2) := by
        simpa [github_get_client_app, hb, hc] using h
      exact absurd hf (github_get_client_fail_ne_ok _ _ _ _ _)
    | some creds =>
      cases hgc : creds.github_connected with
      | false =>
        have hf : github_get_client_fail
            (store.get_api_credentials false response).state ts
              = (.ok c, st2, ts2) := by
          simpa [github_get_client_app, hb, hc, hgc] using h
        exact absurd hf (github_get_client_fail_ne_ok _ _ _ _ _)
      | true =>
        cases hgt : creds.github_token with
        | none =>
          have hf : github_get_client_fail
              (store.get_api_credentials false response).state ts
                = (.ok c, st2, ts2) := by
            simpa [github_get_client_app, hb, hc, hgc, hgt] using h
          exact absurd hf (github_get_client_fail_ne_ok _ _ _ _ _)
        | some gtoken =>
          cases hne : gtoken.isEmpty with
          | true =>
            have hf : github_get_client_fail
                (store.get_api_credentials false response).state ts
                  = (.ok c, st2, ts2) := by
              simpa [github_get_client_app, hb, hc, hgc, hgt, hne] using h
            exact absurd hf (github_get_client_fail_ne_ok _ _ _ _ _)
          | false =>
            exact ⟨gtoken, by simp [githubAppToken, hb, hc, hgc, hgt, hne]⟩

/-- With a resolved App token, the App branch follows the shared
cache discipline: hit returns the cached handle, miss builds a fresh
handle and replaces the entry. -/
theorem github_get_client_app_resolved (hash : String → Nat)
    (store : CredStoreState) (e : LocatorEnv) (response : ApiResponse)
    (ts : GitHubToolsState) (t : String)
    (h : githubAppToken store response = some t) :
    ∃ owner instId,
      github_get_client_app hash store e response ts =
        (match cachedHit ts.client_cache (hash t) with
         | some c0 =>
           (.ok c0, (store.get_api_credentials false response).state, ts)
         | none =>
           (.ok { id := ts.next_id, token := t, default_owner := owner,
                  installation_id := instId },
            (store.get_api_credentials false response).state,
            { using_pat_mode := false, pat_source := none
              client_cache := some (hash t,
                { id := ts.next_id, token := t, default_owner := owner,
                  installation_id := instId })
              next_id := ts.next_id + 1 })) := by
  cases hb : store.is_authenticated with
  | false => simp [githubAppToken, hb] at h
  | true =>
    cases hc : (store.get_api_credentials false response).creds with
    | none => simp [githubAppToken, hb, hc] at h
    | some creds =>
      cases hgc : creds.github_connected with
      | false => simp [githubAppToken, hb, hc, hgc] at h
      | true =>
        cases hgt : creds.github_token with
        | none => simp [githubAppToken, hb, hc, hgc, hgt] at h
        | some gtoken =>
          cases hne : gtoken.isEmpty with
          | true => simp [githubAppToken, hb, hc, hgc, hgt, hne] at h
          | false =>
            have ht : gtoken = t := by
              simpa [githubAppToken, hb, hc, hgc, hgt, hne] using h
            subst ht
            refine ⟨creds.github_username, creds.github_installation_id, ?_⟩
            cases hch : cachedHit ts.client_cache (hash gtoken) <;>
              simp [github_get_client_app, hb, hc, hgc, hgt, hne, hch]

/-- A successful GitHub `_get_client` call presupposes a resolved
credential. -/
theorem github_get_client_ok_exists (hash : String → Nat)
    (store : CredStoreState) (e : LocatorEnv) (response : ApiResponse)
    (ts : GitHubToolsState) (c : GitHubClientHandle) (st2 : CredStoreState)
    (ts2 : GitHubToolsState)
    (h : github_get_client hash store e response ts = (.ok c, st2, ts2)) :
    ∃ t, resolvedGitHubToken store e response = some t := by
  rcases hg : get_github_pat store e with ⟨p1, p2⟩
  cases p1 with
  | some pat_token =>
    cases hpe : pat_token.isEmpty with
    | false => exact ⟨pat_token, by simp [resolvedGitHubToken, hg, hpe]⟩
    | true =>
      have happ : github_get_client_app hash store e response ts
          = (.ok c, st2, ts2) := by
        simpa [github_get_client, hg, hpe] using h
      obtain ⟨t, ht⟩ :=
        github_get_client_app_ok_exists hash store e response ts c st2 ts2 happ
      exact ⟨t, by simp [resolvedGitHubToken, hg, hpe, ht]⟩
  | none =>
    have happ : github_get_client_app hash store e response ts
        = (.ok c, st2, ts2) := by
      simpa [github_get_client, hg] using h
    obtain ⟨t, ht⟩ :=
      github_get_client_app_ok_exists hash store e response ts c st2 ts2 happ
    exact ⟨t, by simp [resolvedGitHubToken, hg, ht]⟩

/-- With a resolved credential, the GitHub `_get_client` follows the
shared cache discipline, whichever branch (PAT or App) resolved it. -/
theorem github_get_client_resolved (hash : String → Nat)
    (store : CredStoreState) (e : LocatorEnv) (response : ApiResponse)
    (ts : GitHubToolsState) (t : String)
    (h : resolvedGitHubToken store e response = some t) :
    ∃ owner instId stx mode src,
      github_get_client hash store e response ts =
        (match cachedHit ts.client_cache (hash t) with
         | some c0 => (.ok c0, stx, ts)
         | none =>
           (.ok { id := ts.next_id, token := t, default_owner := owner,
                  installation_id := instId }, stx,
            { using_pat_mode := mode, pat_source := src
              client_cache := some (hash t,
                { id := ts.next_id, token := t, default_owner := owner,
                  installation_id := instId })
              next_id := ts.next_id + 1 })) := by
  rcases hg : get_github_pat store e with ⟨p1, p2⟩
  cases p1 with
  | some pat_token =>
    cases hpe : pat_token.isEmpty with
    | false =>
      have ht : pat_token = t := by
        simpa [resolvedGitHubToken, hg, hpe] using h
      subst ht
      refine ⟨get_github_pat_username store e, none, store, true, p2, ?_⟩
      cases hch : cachedHit ts.client_cache (hash pat_token) <;>
        simp [github_get_client, hg, hpe, github_get_client_pat, hch]
    | true =>
      have ht : githubAppToken store response = some t := by
        simpa [resolvedGitHubToken, hg, hpe] using h
      obtain ⟨owner, instId, happ⟩ :=
        github_get_client_app_resolved hash store e response ts t ht
      have hred : github_get_client hash store e response ts
          = github_get_client_app hash store e response ts := by
        simp [github_get_client, hg, hpe]
      exact ⟨owner, instId, (store.get_api_credentials false response).state,
        false, none, by rw [hred]; exact happ⟩
  | none =>
    have ht : githubAppToken store response = some t := by
      simpa [resolvedGitHubToken, hg] using h
    obtain ⟨owner, instId, happ⟩ :=
      github_get_client_app_resolved hash store e response ts t ht
    have hred : github_get_client hash store e response ts
        = github_get_client_app hash store e response ts := by
      simp [github_get_client, hg]
    exact ⟨owner, instId, (store.get_api_credentials false response).state,
      false, none, by rw [hred]; exact happ⟩

/-- After any successful GitHub `_get_client` call, the cache holds
the returned handle under its token fingerprint, the handle's id is
below the fresh-id counter, and well-formedness is preserved. -/
theorem github_get_client_post (hash : String → Nat)
    (store : CredStoreState) (e : LocatorEnv) (response : ApiResponse)
    (ts : GitHubToolsState) (c : GitHubClientHandle) (st2 : CredStoreState)
    (ts2 : GitHubToolsState) (hwf : ts.wf hash)
    (h : github_get_client hash store e response ts = (.ok c, st2, ts2)) :
    ts2.client_cache = some (hash c.token, c) ∧
    c.id < ts2.next_id ∧ ts2.wf hash := by
  obtain ⟨t, hres⟩ :=
    github_get_client_ok_exists hash store e response ts c st2 ts2 h
  obtain ⟨owner, instId, stx, mode, src, heq⟩ :=
    github_get_client_resolved hash store e response ts t hres
  rw [heq] at h
  cases hch : cachedHit ts.client_cache (hash t) with
  | some c0 =>
    rw [hch] at h
    simp only [Prod.mk.injEq, Except.ok.injEq] at h
    obtain ⟨h1, _, h3⟩ := h
    rw [h1] at hch
    subst h3
    have hcache := cachedHit_eq_some ts.client_cache (hash t) c hch
    obtain ⟨hkey, hid⟩ := hwf _ _ hcache
    rw [hkey] at hcache
    exact ⟨hcache, hid, hwf⟩
  | none =>
    rw [hch] at h
    simp only [Prod.mk.injEq, Except.ok.injEq] at h
    obtain ⟨h1, _, h3⟩ := h
    subst h1
    subst h3
    refine ⟨rfl, Nat.lt_succ_self _, ?_⟩
    intro h0 c0 hc0
    simp only [Option.some.injEq, Prod.mk.injEq] at hc0
    obtain ⟨hk0, hc0⟩ := hc0
    subst hk0
    subst hc0
    exact ⟨rfl, Nat.lt_succ_self _⟩

/-- Claim C7 counterexample: the claim says a changed resolved
credential always yields a newly constructed handle whose fingerprint
differs.  The fingerprint is Python's per-process keyed, wrapped
64-bit string `hash`, so the code guarantees no inequality between any
two specific tokens' fingerprints; under the admissible fingerprint
`collidingHash`, rotating the PAT from `ghp_env` to `ghp_new` makes
the second `_get_client` call hit the cache and hand back the stale
handle still bound to `ghp_env` — the same instance with the same
fingerprint, and the cached entry is not replaced. -/
theorem client_cache_collision_counterexample :
    github_get_client collidingHash emptyStore envWithToken .exn {}
      = (.ok ghClient1, emptyStore, ghTs1C) ∧
    resolvedGitHubToken emptyStore envWithToken2 .exn = some ("ghp_new") ∧
    ghClient1.token ≠ ("ghp_new") ∧
    github_get_client collidingHash emptyStore envWithToken2 .exn ghTs1C
      = (.ok ghClient1, emptyStore, ghTs1C) :=
  ⟨rfl, rfl, by decide, rfl⟩

/-- Claim C7 (amended): client-cache coherence for both downstream
services, relative to the process's fingerprint function (Python's
keyed, wrapped 64-bit string `hash`, modelled as an arbitrary
function).  Across two consecutive `_get_client` calls that both
return a client (the second running on the state left by the first,
from any well-formed initial cache): if the credential resolved by the
second call equals the first client's credential, the very same handle
instance is returned and the cache is untouched; more generally the
cached handle comes back unchanged whenever the new credential's
fingerprint equals the cached one — on a hash collision between
different credentials this is the stale handle bound to the old
credential.  When the fingerprints differ, the second call returns a
newly constructed handle (fresh id, never the first instance) whose
fingerprint differs from the first handle's, replacing — never
mutating — the cached entry. -/
theorem client_cache_coherence :
    (∀ (hash : String → Nat) (store : CredStoreState)
        (response : ApiResponse) (ts : SlackToolsState)
        (c1 : SlackClientHandle) (st1 : CredStoreState)
        (ts1 : SlackToolsState) (response2 : ApiResponse)
        (c2 : SlackClientHandle) (st2 : CredStoreState)
        (ts2 : SlackToolsState) (t2 : String),
      ts.wf hash →
      slack_get_client hash store response ts = (.ok c1, st1, ts1) →
      resolvedSlackToken st1 response2 = some t2 →
      slack_get_client hash st1 response2 ts1 = (.ok c2, st2, ts2) →
      ((t2 = c1.bot_token → (c2 = c1 ∧ ts2 = ts1)) ∧
       (hash t2 = hash c1.bot_token → (c2 = c1 ∧ ts2 = ts1)) ∧
       (hash t2 ≠ hash c1.bot_token →
         (c2.bot_token = t2 ∧ c2.id ≠ c1.id ∧ c2 ≠ c1 ∧
          hash c2.bot_token ≠ hash c1.bot_token ∧
          ts2.client_cache = some (hash c2.bot_token, c2))))) ∧
    (∀ (hash : String → Nat) (store : CredStoreState) (e : LocatorEnv)
        (response : ApiResponse) (ts : GitHubToolsState)
        (c1 : GitHubClientHandle) (st1 : CredStoreState)
        (ts1 : GitHubToolsState) (e2 : LocatorEnv)
        (response2 : ApiResponse) (c2 : GitHubClientHandle)
        (st2 : CredStoreState) (ts2 : GitHubToolsState) (t2 : String),
      ts.wf hash →
      github_get_client hash store e response ts = (.ok c1, st1, ts1) →
      resolvedGitHubToken st1 e2 response2 = some t2 →
      github_get_client hash st1 e2 response2 ts1 = (.ok c2, st2, ts2) →
      ((t2 = c1.token → (c2 = c1 ∧ ts2 = ts1)) ∧
       (hash t2 = hash c1.token → (c2 = c1 ∧ ts2 = ts1)) ∧
       (hash t2 ≠ hash c1.token →
         (c2.token = t2 ∧ c2.id ≠ c1.id ∧ c2 ≠ c1 ∧
          hash c2.token ≠ hash c1.token ∧
          ts2.client_cache = some (hash c2.token, c2))))) := by
  constructor
  · intro hash store response ts c1 st1 ts1 response2 c2 st2 ts2 t2
    intro hwf hcall1 hres2 hcall2
    obtain ⟨hcache1, hid1, hwf1⟩ :=
      slack_get_client_post hash store response ts c1 st1 ts1 hwf hcall1
    rw [slack_get_client_resolved hash st1 response2 ts1 t2 hres2] at hcall2
    have harm2 : hash t2 = hash c1.bot_token → (c2 = c1 ∧ ts2 = ts1) := by
      intro hk
      have hch : cachedHit ts1.client_cache (hash t2) = some c1 := by
        rw [hcache1, hk]
        simp [cachedHit]
      rw [hch] at hcall2
      simp only [Prod.mk.injEq, Except.ok.injEq] at hcall2
      exact ⟨hcall2.1.symm, hcall2.2.2.symm⟩
    refine ⟨fun heq => harm2 (congrArg hash heq), harm2, ?_⟩
    intro hkne
    have hch : cachedHit ts1.client_cache (hash t2) = none := by
      rw [hcache1]
      exact cachedHit_ne _ _ _ (fun hk => hkne hk.symm)
    rw [hch] at hcall2
    simp only [Prod.mk.injEq, Except.ok.injEq] at hcall2
    obtain ⟨h1, _, h3⟩ := hcall2
    subst h1
    subst h3
    refine ⟨rfl, Ne.symm (Nat.ne_of_lt hid1), ?_, hkne, rfl⟩
    intro he
    exact Nat.ne_of_lt hid1 (congrArg SlackClientHandle.id he).symm
  · intro hash store e response ts c1 st1 ts1 e2 response2 c2 st2 ts2 t2
    intro hwf hcall1 hres2 hcall2
    obtain ⟨hcache1, hid1, hwf1⟩ :=
      github_get_client_post hash store e response ts c1 st1 ts1 hwf hcall1
    obtain ⟨owner, instId, stx, mode, src, heq⟩ :=
      github_get_client_resolved hash st1 e2 response2 ts1 t2 hres2
    rw [heq] at hcall2
    have harm2 : hash t2 = hash c1.token → (c2 = c1 ∧ ts2 = ts1) := by
      intro hk
      have hch : cachedHit ts1.client_cache (hash t2) = some c1 := by
        rw [hcache1, hk]
        simp [cachedHit]
      rw [hch] at hcall2
      simp only [Prod.mk.injEq, Except.ok.injEq] at hcall2
      exact ⟨hcall2.1.symm, hcall2.2.2.symm⟩
    refine ⟨fun heq2 => harm2 (congrArg hash heq2), harm2, ?_⟩
    intro hkne
    have hch : cachedHit ts1.client_cache (hash t2) = none := by
      rw [hcache1]
      exact cachedHit_ne _ _ _ (fun hk => hkne hk.symm)
    rw [hch] at hcall2
    simp only [Prod.mk.injEq, Except.ok.injEq] at hcall2
    obtain ⟨h1, _, h3⟩ := hcall2
    subst h1
    subst h3
    refine ⟨rfl, Ne.symm (Nat.ne_of_lt hid1), ?_, hkne, rfl⟩
    intro he
    exact Nat.ne_of_lt hid1 (congrArg GitHubClientHandle.id he).symm

/-- Witness for the amended C7 at the fingerprint `sampleHash`: the
Slack client is fetched twice with the same bot token (same handle
comes back, cache untouched); the GitHub client is fetched across a
PAT rotation from `ghp_env` to `ghp_new` (fresh handle, new
fingerprint, replaced cache entry). -/
theorem client_cache_coherence_witness :
    ((("xoxb-1") = slackClient1.bot_token →
        (slackClient1 = slackClient1 ∧ slackTs1 = slackTs1)) ∧
     (sampleHash ("xoxb-1") = sampleHash slackClient1.bot_token →
        (slackClient1 = slackClient1 ∧ slackTs1 = slackTs1)) ∧
     (sampleHash ("xoxb-1") ≠ sampleHash slackClient1.bot_token →
        (slackClient1.bot_token = ("xoxb-1") ∧
         slackClient1.id ≠ slackClient1.id ∧
         slackClient1 ≠ slackClient1 ∧
         sampleHash slackClient1.bot_token
           ≠ sampleHash slackClient1.bot_token ∧
         slackTs1.client_cache
           = some (sampleHash slackClient1.bot_token, slackClient1)))) ∧
    ((("ghp_new") = ghClient1.token →
        (ghClient2 = ghClient1 ∧ ghTs2 = ghTs1)) ∧
     (sampleHash ("ghp_new") = sampleHash ghClient1.token →
        (ghClient2 = ghClient1 ∧ ghTs2 = ghTs1)) ∧
     (sampleHash ("ghp_new") ≠ sampleHash ghClient1.token →
        (ghClient2.token = ("ghp_new") ∧
         ghClient2.id ≠ ghClient1.id ∧
         ghClient2 ≠ ghClient1 ∧
         sampleHash ghClient2.token ≠ sampleHash ghClient1.token ∧
         ghTs2.client_cache
           = some (sampleHash ghClient2.token, ghClient2)))) :=
  ⟨client_cache_coherence.1 sampleHash sampleState slackResp1 {}
      slackClient1 slackStoreAfter slackTs1 slackResp1 slackClient1
      slackStoreAfter slackTs1 ("xoxb-1")
      (fun _ _ hc => nomatch hc) rfl rfl rfl,
   client_cache_coherence.2 sampleHash emptyStore envWithToken .exn {}
      ghClient1 emptyStore ghTs1 envWithToken2 .exn ghClient2 emptyStore
      ghTs2 ("ghp_new") (fun _ _ hc => nomatch hc) rfl rfl rfl⟩

end QuickCall
